import Mathlib

/-!
Verification of the session-bridging reverse proxy
(Cloudflare Worker, Hono, `src/unnamed/part_001`).

The embedding below translates the worker's route handlers into pure Lean
functions.  Request/response side effects (cookies set or cleared, KV store
writes and deletes scheduled through `executionCtx.waitUntil`, the upstream
request issued through `fetch`) are made explicit as fields of the result
record.  The environment (KV store contents, upstream responses, the
`FRONTEND_URL` binding) is passed in as data.  Thrown `HTTPException`s are
modelled by the response they are converted to by the `app.onError` handler
(status plus a JSON error body), which is their only observable effect.
-/

namespace NewsblurProxy

/-- HTTP methods that can reach the worker. -/
inductive Method where
  | GET | HEAD | POST | PUT | DELETE | OPTIONS | PATCH
deriving DecidableEq, Repr

/-- ASCII lowercasing, used to model the case-insensitivity of the
`Headers` web API. -/
def lowerStr (s : String) : String :=
  String.mk (s.data.map Char.toLower)

/-- A header collection, observationally modelled as an association list.
Lookup, overwrite and removal are case-insensitive, as in the `Headers`
web API. -/
abbrev HeaderMap := List (String × String)

/-- `Headers.get`: first entry whose name matches case-insensitively. -/
def headerGet : HeaderMap → String → Option String
  | [], _ => Option.none
  | kv :: t, name =>
    if lowerStr kv.1 = lowerStr name then some kv.2 else headerGet t name

/-- `Headers.delete`: drop every entry with a matching name. -/
def headerDelete : HeaderMap → String → HeaderMap
  | [], _ => []
  | kv :: t, name =>
    if lowerStr kv.1 = lowerStr name then headerDelete t name
    else kv :: headerDelete t name

/-- `Headers.set`: replace any entry with a matching name by the new pair. -/
def headerSet (hs : HeaderMap) (name value : String) : HeaderMap :=
  headerDelete hs name ++ [(name, value)]

/-- The components of `new URL(c.req.url)` that the worker reads:
`protocol` (with trailing colon, e.g. `"https:"`), `hostname` (no port),
`host` (with port when present), `pathname` and `search` (with leading
`?` when nonempty). -/
structure URLParts where
  protocol : String
  hostname : String
  host : String
  pathname : String
  search : String
deriving DecidableEq, Repr

/-- `URL.origin`, i.e. scheme plus host. -/
def urlOrigin (u : URLParts) : String :=
  u.protocol ++ "//" ++ u.host

/-- An inbound request.  `path` is Hono's `c.req.path`; `url` is the result
of `new URL(c.req.url)`, with `Option.none` modelling the (defensive,
normally unreachable) case where URL construction throws. -/
structure Req where
  method : Method
  path : String
  url : Option URLParts
  headers : HeaderMap
  body : Option String
deriving DecidableEq, Repr

/-- The request the worker sends upstream via `fetch`. -/
structure UpstreamReq where
  method : Method
  urlStr : String
  headers : HeaderMap
  body : Option String
deriving DecidableEq, Repr

/-- An upstream (NewsBlur) response.  `bodyIsJson` records whether
`response.json()` succeeds on the body, which the login failure path
consults. -/
structure UpstreamResp where
  status : Nat
  headers : HeaderMap
  body : String
  bodyIsJson : Bool
deriving DecidableEq, Repr

/-- Outcome of a `fetch` call: a response, or a thrown network error. -/
inductive FetchResult where
  | success (resp : UpstreamResp)
  | networkError
deriving DecidableEq, Repr

/-- Outcome of `SESSIONS.get`: a stored value, a miss (`null`), or a thrown
store error. -/
inductive KVRead where
  | value (s : String)
  | missing
  | unavailable
deriving DecidableEq, Repr

/-- The worker's environment: the `FRONTEND_URL` binding, the KV session
store, and the upstream service's behaviour for forwarded requests. -/
structure Env where
  frontendUrl : Option String
  kvGet : String → KVRead
  fetchProxy : UpstreamReq → FetchResult
  fetchLogin : FetchResult

/-- `SameSite` cookie attribute values used by the worker. -/
inductive SameSiteAttr where
  | lax
  | none
deriving DecidableEq, Repr

/-- Options passed to `setCookie` for the proxy session cookie. -/
structure CookieOpts where
  path : String
  httpOnly : Bool
  secure : Bool
  sameSite : SameSiteAttr
  maxAge : Nat
deriving DecidableEq, Repr

/-- The distinguishable response bodies the worker produces. -/
inductive RBody where
  | empty
  | jsonLoginOk
  | jsonLogoutOk
  | jsonRelay (s : String)
  | jsonGenericLoginFail
  | httpError (msg : String)
  | upstreamStream
deriving DecidableEq, Repr

/-- The observable outcome of handling one request: status, body, response
headers explicitly copied by the handler, cookie effects, scheduled KV
effects, and the upstream request constructed (if any). -/
structure ProxyResult where
  status : Nat
  body : RBody
  headers : HeaderMap
  setCookie : Option (String × CookieOpts)
  clearCookie : Bool
  kvPut : Option (String × String × Nat)
  kvDelete : Option String
  sentUpstream : Option UpstreamReq
deriving DecidableEq, Repr

/-- Response skeleton with no effects recorded. -/
def baseResult : ProxyResult :=
  { status := 0
    body := RBody.empty
    headers := []
    setCookie := Option.none
    clearCookie := false
    kvPut := Option.none
    kvDelete := Option.none
    sentUpstream := Option.none }

-- Constants from the source.
def newsblurBaseUrl : String := "https://newsblur.com"
def proxySessionCookieName : String := "proxy_session_id"
def userAgentStr : String := "Hono-NewsBlur-Proxy-TS/1.0 (Cloudflare Worker)"
def sessionTtl : Nat := 24 * 60 * 60

/-- JavaScript `String.prototype.trim` whitespace test (the characters
that occur in cookie headers). -/
def isSpaceChar (c : Char) : Bool :=
  c = ' ' || c = '\t' || c = '\n' || c = '\r'

/-- Trim leading and trailing whitespace from a character list. -/
def trimChars (l : List Char) : List Char :=
  ((l.dropWhile isSpaceChar).reverse.dropWhile isSpaceChar).reverse

/-- Split a character list on a separator character
(`String.prototype.split`). -/
def splitOnCharAux (c : Char) : List Char → List Char → List (List Char)
  | [], acc => [acc.reverse]
  | x :: xs, acc =>
    if x = c then acc.reverse :: splitOnCharAux c xs []
    else splitOnCharAux c xs (x :: acc)

/-- Split a character list on a separator character. -/
def splitOnChar (c : Char) (l : List Char) : List (List Char) :=
  splitOnCharAux c l []

/-- One reduction step of `hono/cookie`'s `parse`: trim the pair, split it
at its first `=`; a pair without `=` is skipped; a later pair with the
requested name overwrites an earlier one.  (Quote stripping and URI
decoding are omitted: session identifiers contain neither.) -/
def cookiePairLookup (name : String) (pairs : List (List Char)) : Option String :=
  pairs.foldl
    (fun acc pair =>
      let p := trimChars pair
      let nm := p.takeWhile (fun ch => !(ch == '='))
      match p.dropWhile (fun ch => !(ch == '=')) with
      | [] => acc
      | _ :: val =>
        if String.mk nm = name then some (String.mk (trimChars val)) else acc)
    Option.none

/-- `hono/cookie`'s `getCookie(c, name)` applied to the `Cookie` header. -/
def getCookieVal (req : Req) (name : String) : Option String :=
  match headerGet req.headers "Cookie" with
  | Option.none => Option.none
  | some h => cookiePairLookup name (splitOnChar ';' h.data)

/-- `getSecureFlag` (part_001 lines 69-90): secure over HTTPS; over HTTP,
secure unless the hostname is a local development host; secure by default
if URL parsing fails. -/
def getSecureFlag (req : Req) : Bool :=
  match req.url with
  | Option.none => true
  | some u =>
    if u.protocol = "https:" then true
    else !(u.hostname = "localhost" || u.hostname = "127.0.0.1")

/-- `getSameSiteAttribute` (part_001 lines 97-117): `Lax` when the `Origin`
header equals the worker's own origin, `None` otherwise (including when the
header is absent or URL handling throws). -/
def getSameSiteAttribute (req : Req) : SameSiteAttr :=
  match req.url with
  | Option.none => SameSiteAttr.none
  | some u =>
    match headerGet req.headers "Origin" with
    | some o => if o = urlOrigin u then SameSiteAttr.lax else SameSiteAttr.none
    | Option.none => SameSiteAttr.none

/-- Remove the first occurrence of `pat` from a character list
(`String.prototype.replace` with an empty replacement). -/
def removeFirstAux (pat : List Char) : List Char → List Char
  | [] => []
  | c :: rest =>
    if pat.isPrefixOf (c :: rest) then (c :: rest).drop pat.length
    else c :: removeFirstAux pat rest

/-- `s.replace(pat, '')` for a plain-string pattern: removes the first
occurrence only. -/
def removeFirst (s pat : String) : String :=
  String.mk (removeFirstAux pat.data s.data)

/-- The literal scanned for by the login regex. -/
def nbPat : List Char := "newsblur_sessionid=".data

/-- The regex `/newsblur_sessionid=([^;]+)/` applied to a character list:
at the first position where the literal occurs followed by at least one
non-`;` character, capture the maximal run of non-`;` characters; otherwise
keep scanning. -/
def findSessionTok : List Char → Option (List Char)
  | [] => Option.none
  | c :: rest =>
    if nbPat.isPrefixOf (c :: rest) then
      let cap := ((c :: rest).drop nbPat.length).takeWhile (fun ch => !(ch == ';'))
      if cap.isEmpty then findSessionTok rest else some cap
    else findSessionTok rest

/-- Credential extraction in the login handler (part_001 lines 181-190):
requires the `set-cookie` header to be present, the status to lie in
200-399, and the session-id pattern to match; on success the stored value
is `newsblur_sessionid=<captured>`. -/
def loginExtract (resp : UpstreamResp) : Option String :=
  match headerGet resp.headers "set-cookie" with
  | Option.none => Option.none
  | some sc =>
    if 200 ≤ resp.status ∧ resp.status < 400 then
      (findSessionTok sc.data).map (fun cap => "newsblur_sessionid=" ++ String.mk cap)
    else Option.none

/-- Form-field lookup on the parsed login body. -/
def formField (form : List (String × String)) (name : String) : Option String :=
  (form.find? (fun kv => kv.1 == name)).map (fun kv => kv.2)

/-- Input validation of the login handler (part_001 lines 146-160):
`Option.none` models a body-parse failure; both fields must be present,
string-valued and nonempty. -/
def validCreds (form : Option (List (String × String))) : Option (String × String) :=
  match form with
  | Option.none => Option.none
  | some f =>
    match formField f "username", formField f "password" with
    | some un, some pw =>
      if un = "" || pw = "" then Option.none else some (un, pw)
    | _, _ => Option.none

/-- `app.post('/proxy/api/login')` (part_001 lines 145-244).  `uuid` is the
value produced by `crypto.randomUUID()`; `lf` is the outcome of the
upstream login `fetch`. -/
def loginHandler (req : Req) (form : Option (List (String × String)))
    (uuid : String) (lf : FetchResult) : ProxyResult :=
  match validCreds form with
  | Option.none =>
    { baseResult with
      status := 400
      body := RBody.httpError "Username and password are required strings." }
  | some _ =>
    match lf with
    | FetchResult.networkError =>
      { baseResult with
        status := 502
        body := RBody.httpError "Proxy error contacting NewsBlur login." }
    | FetchResult.success resp =>
      match loginExtract resp with
      | some cred =>
        { baseResult with
          status := 200
          body := RBody.jsonLoginOk
          setCookie := some (uuid,
            { path := "/"
              httpOnly := true
              secure := getSecureFlag req
              sameSite := getSameSiteAttribute req
              maxAge := sessionTtl })
          kvPut := some (uuid, cred, sessionTtl) }
      | Option.none =>
        { baseResult with
          status := resp.status
          body := if resp.bodyIsJson then RBody.jsonRelay resp.body
                  else RBody.jsonGenericLoginFail
          clearCookie := true }

/-- Headers deleted before forwarding (part_001 line 286). -/
def strippedHeaders : List String :=
  ["Host", "Cf-Connecting-Ip", "Cf-Ipcountry", "Cf-Visitor", "Cf-Ray",
   "Cf-Worker", "X-Forwarded-For", "X-Forwarded-Proto", "Connection"]

/-- Construction of the forwarded upstream request (part_001 lines
274-292): prefix-stripped path plus query, inbound headers with `Cookie`
and `User-Agent` overwritten and the edge headers deleted, body forwarded
for methods other than GET/HEAD. -/
def mkUpstreamReq (req : Req) (cred : String) (u : URLParts) : UpstreamReq :=
  { method := req.method
    urlStr := newsblurBaseUrl ++ removeFirst u.pathname "/proxy" ++ u.search
    headers := strippedHeaders.foldl headerDelete
      (headerSet (headerSet req.headers "Cookie" cred) "User-Agent" userAgentStr)
    body := if req.method ≠ Method.GET ∧ req.method ≠ Method.HEAD then req.body
            else Option.none }

/-- Response headers copied back to the client (part_001 line 308). -/
def allowedRespHeaders : List String :=
  ["content-type", "content-length", "date", "etag"]

/-- `app.all('/proxy/*')` (part_001 lines 248-325), the forwarding
handler. -/
def proxyHandler (req : Req) (env : Env) : ProxyResult :=
  match getCookieVal req proxySessionCookieName with
  | Option.none =>
    if req.method = Method.GET ∧ "favicon.ico".data.isSuffixOf req.path.data then
      { baseResult with status := 404 }
    else
      { baseResult with
        status := 401
        body := RBody.httpError "Not authenticated via proxy. Please log in." }
  | some sessionId =>
    match env.kvGet sessionId with
    | KVRead.unavailable =>
      { baseResult with
        status := 500
        body := RBody.httpError
          "Proxy internal server error (KV Store read failure). Check binding." }
    | KVRead.missing =>
      { baseResult with
        status := 401
        clearCookie := true
        body := RBody.httpError
          "Proxy session expired or invalid. Please log in again." }
    | KVRead.value cred =>
      match req.url with
      | Option.none =>
        { baseResult with
          status := 500
          body := RBody.httpError "Internal Server Error" }
      | some u =>
        let ureq := mkUpstreamReq req cred u
        match env.fetchProxy ureq with
        | FetchResult.networkError =>
          { baseResult with
            status := 502
            sentUpstream := some ureq
            body := RBody.httpError "Proxy error contacting NewsBlur upstream." }
        | FetchResult.success resp =>
          if resp.status = 401 ∨ resp.status = 403 then
            { baseResult with
              status := 401
              clearCookie := true
              kvDelete := some sessionId
              sentUpstream := some ureq
              body := RBody.httpError
                "NewsBlur session expired or invalid. Please log in again via proxy." }
          else
            { baseResult with
              status := resp.status
              sentUpstream := some ureq
              body := RBody.upstreamStream
              headers := resp.headers.filter
                (fun kv => allowedRespHeaders.contains (lowerStr kv.1)) }

/-- `app.post('/proxy/api/logout')` (part_001 lines 328-353): schedule a KV
delete when a session cookie is present, always clear the client cookie,
always answer with the success JSON. -/
def logoutHandler (req : Req) : ProxyResult :=
  { baseResult with
    status := 200
    body := RBody.jsonLogoutOk
    kvDelete := getCookieVal req proxySessionCookieName
    clearCookie := true }

/-- The routes registered on the app, in registration order. -/
inductive RouteChoice where
  | preflight
  | login
  | proxyAll
  | logout
  | notFound
deriving DecidableEq, Repr

/-- Hono path pattern `/proxy/*`. -/
def matchesProxyStar (path : String) : Bool :=
  "/proxy/".data.isPrefixOf path.data || path == "/proxy"

/-- Hono dispatch: handlers are tried in registration order and the first
match wins (Hono routing priority).  Registration order in part_001:
`app.options('/proxy/*')` (line 136), `app.post('/proxy/api/login')`
(line 145), `app.all('/proxy/*')` (line 248),
`app.post('/proxy/api/logout')` (line 328).  Because `/proxy/*` also
matches `/proxy/api/logout` for POST, the logout registration is
unreachable. -/
def dispatch (m : Method) (path : String) : RouteChoice :=
  if m = Method.OPTIONS ∧ matchesProxyStar path then RouteChoice.preflight
  else if m = Method.POST ∧ path = "/proxy/api/login" then RouteChoice.login
  else if matchesProxyStar path then RouteChoice.proxyAll
  else if m = Method.POST ∧ path = "/proxy/api/logout" then RouteChoice.logout
  else RouteChoice.notFound

/-- The whole app (part_001 lines 122-365): the CORS middleware's
`getFrontendOrigin` throws HTTP 500 when no `Origin` header is present and
`FRONTEND_URL` is unset; otherwise the request is dispatched to the first
matching route. -/
def appHandle (req : Req) (form : Option (List (String × String)))
    (uuid : String) (env : Env) : ProxyResult :=
  if matchesProxyStar req.path ∧ (headerGet req.headers "Origin").isNone
      ∧ env.frontendUrl.isNone then
    { baseResult with
      status := 500
      body := RBody.httpError
        "Worker configuration error: Frontend origin cannot be determined." }
  else
    match dispatch req.method req.path with
    | RouteChoice.preflight => { baseResult with status := 204 }
    | RouteChoice.login => loginHandler req form uuid env.fetchLogin
    | RouteChoice.proxyAll => proxyHandler req env
    | RouteChoice.logout => logoutHandler req
    | RouteChoice.notFound => { baseResult with status := 404 }

/-!  Concrete requests and environments used to instantiate the theorems
below on closed inputs. -/

/-- A request is an unencrypted request to a local development host:
exactly the configuration in which `getSecureFlag` deliberately returns
`false`. -/
def isLocalDevHttp (req : Req) : Bool :=
  match req.url with
  | Option.none => false
  | some u =>
    if u.protocol = "https:" then false
    else (u.hostname = "localhost" || u.hostname = "127.0.0.1")

def url1 : URLParts :=
  { protocol := "https:"
    hostname := "worker.example.com"
    host := "worker.example.com"
    pathname := "/proxy/api/logout"
    search := "" }

def rq1 : Req :=
  { method := Method.POST
    path := "/proxy/api/logout"
    url := some url1
    headers := [("Origin", "https://app.example.com")]
    body := Option.none }

def env1 : Env :=
  { frontendUrl := Option.none
    kvGet := fun _ => KVRead.missing
    fetchProxy := fun _ => FetchResult.networkError
    fetchLogin := FetchResult.networkError }

def rq2 : Req :=
  { method := Method.POST
    path := "/proxy/api/login"
    url := some
      { protocol := "http:"
        hostname := "localhost"
        host := "localhost:8787"
        pathname := "/proxy/api/login"
        search := "" }
    headers := [("Origin", "http://localhost:8080")]
    body := Option.none }

def rq2w : Req :=
  { method := Method.POST
    path := "/proxy/api/login"
    url := some
      { protocol := "https:"
        hostname := "worker.example.com"
        host := "worker.example.com"
        pathname := "/proxy/api/login"
        search := "" }
    headers := [("Origin", "https://app.example.com")]
    body := Option.none }

def url3 : URLParts :=
  { protocol := "https:"
    hostname := "worker.example.com"
    host := "worker.example.com"
    pathname := "/proxy/reader/feeds"
    search := "" }

def rq3 : Req :=
  { method := Method.GET
    path := "/proxy/reader/feeds"
    url := some url3
    headers := [("Origin", "https://app.example.com"), ("Cookie", "proxy_session_id=sid3")]
    body := Option.none }

def resp3 : UpstreamResp :=
  { status := 403, headers := [], body := "", bodyIsJson := false }

def env3 : Env :=
  { frontendUrl := Option.none
    kvGet := fun s => if s = "sid3" then KVRead.value "newsblur_sessionid=tok3" else KVRead.missing
    fetchProxy := fun _ => FetchResult.success resp3
    fetchLogin := FetchResult.networkError }

def rq4 : Req :=
  { method := Method.GET
    path := "/proxy/reader/feeds"
    url := some url3
    headers := [("Cookie", "proxy_session_id=sid4")]
    body := Option.none }

def env4 : Env :=
  { frontendUrl := Option.none
    kvGet := fun _ => KVRead.missing
    fetchProxy := fun _ => FetchResult.networkError
    fetchLogin := FetchResult.networkError }

def url5 : URLParts :=
  { protocol := "https:"
    hostname := "worker.example.com"
    host := "worker.example.com"
    pathname := "/proxy/reader/feeds"
    search := "?include_story_content=false" }

def rq5 : Req :=
  { method := Method.GET
    path := "/proxy/reader/feeds"
    url := some url5
    headers := [("Cookie", "proxy_session_id=sid5"), ("User-Agent", "Mozilla/5.0"),
                ("Accept", "application/json"), ("X-Forwarded-For", "203.0.113.9")]
    body := Option.none }

def resp5 : UpstreamResp :=
  { status := 200, headers := [("Content-Type", "application/json")], body := "feeds", bodyIsJson := true }

def env5 : Env :=
  { frontendUrl := Option.none
    kvGet := fun s => if s = "sid5" then KVRead.value "newsblur_sessionid=tok5" else KVRead.missing
    fetchProxy := fun _ => FetchResult.success resp5
    fetchLogin := FetchResult.networkError }

def rq6 : Req :=
  { method := Method.POST
    path := "/proxy/api/login"
    url := some
      { protocol := "https:"
        hostname := "worker.example.com"
        host := "worker.example.com"
        pathname := "/proxy/api/login"
        search := "" }
    headers := []
    body := some "username=alice&password=pw" }

def form6 : Option (List (String × String)) :=
  some [("username", "alice"), ("password", "pw")]

def resp6x : UpstreamResp :=
  { status := 500, headers := [], body := "Server Error", bodyIsJson := false }

def resp6w : UpstreamResp :=
  { status := 401, headers := [("Content-Type", "application/json")],
    body := "authenticated false", bodyIsJson := true }

def resp7 : UpstreamResp :=
  { status := 200
    headers := [("Content-Type", "application/json"), ("X-Internal-Backend", "nb-web-12"),
                ("Set-Cookie", "newsblur_sessionid=leak"), ("ETag", "abc123")]
    body := "feeds"
    bodyIsJson := true }

def rq7 : Req :=
  { method := Method.GET
    path := "/proxy/reader/feeds"
    url := some url3
    headers := [("Cookie", "proxy_session_id=sid7")]
    body := Option.none }

def env7 : Env :=
  { frontendUrl := Option.none
    kvGet := fun s => if s = "sid7" then KVRead.value "newsblur_sessionid=tok7" else KVRead.missing
    fetchProxy := fun _ => FetchResult.success resp7
    fetchLogin := FetchResult.networkError }

def rq8 : Req :=
  { method := Method.GET
    path := "/proxy/reader/feeds"
    url := some url3
    headers := [("Cookie", "proxy_session_id=sid8")]
    body := Option.none }

def env8 : Env :=
  { frontendUrl := Option.none
    kvGet := fun _ => KVRead.unavailable
    fetchProxy := fun _ => FetchResult.networkError
    fetchLogin := FetchResult.networkError }

def rq9 : Req :=
  { method := Method.POST
    path := "/proxy/api/login"
    url := some
      { protocol := "https:"
        hostname := "worker.example.com"
        host := "worker.example.com"
        pathname := "/proxy/api/login"
        search := "" }
    headers := []
    body := some "username=alice&password=pw" }

def form9 : Option (List (String × String)) :=
  some [("username", "alice"), ("password", "pw")]

def uuid9 : String := "11112222-3333-4444-5555-666677778888"

def resp9 : UpstreamResp :=
  { status := 200
    headers := [("Set-Cookie", "newsblur_sessionid=zz12; Path=/; HttpOnly")]
    body := "ok"
    bodyIsJson := true }

def cookieOpts9 : CookieOpts :=
  { path := "/", httpOnly := true, secure := true, sameSite := SameSiteAttr.none, maxAge := sessionTtl }

def rq10 : Req :=
  { method := Method.POST
    path := "/proxy/reader/feed/42"
    url := some
      { protocol := "https:"
        hostname := "worker.example.com"
        host := "worker.example.com"
        pathname := "/proxy/reader/feed/42"
        search := "" }
    headers := [("Cookie", "proxy_session_id=sid10; theme=dark"), ("Content-Type", "application/x-www-form-urlencoded")]
    body := some "page=2" }

def env10 : Env :=
  { frontendUrl := Option.none
    kvGet := fun s => if s = "sid10" then KVRead.value "newsblur_sessionid=tok10" else KVRead.missing
    fetchProxy := fun _ => FetchResult.success resp5
    fetchLogin := FetchResult.networkError }

/-!  Helper lemmas about the header-map operations. -/

theorem headerGet_headerDelete (hs : HeaderMap) (n m : String) :
    headerGet (headerDelete hs n) m =
      if lowerStr m = lowerStr n then Option.none else headerGet hs m := by
  induction hs with
  | nil =>
    by_cases h : lowerStr m = lowerStr n <;> simp [headerGet, headerDelete, h]
  | cons kv t ih =>
    by_cases h1 : lowerStr kv.1 = lowerStr n <;>
      by_cases h2 : lowerStr kv.1 = lowerStr m <;>
        by_cases h3 : lowerStr m = lowerStr n <;>
          simp_all [headerGet, headerDelete]

theorem headerGet_headerSet (hs : HeaderMap) (n v m : String) :
    headerGet (headerSet hs n v) m =
      if lowerStr m = lowerStr n then some v else headerGet hs m := by
  induction hs with
  | nil =>
    by_cases h : lowerStr m = lowerStr n <;>
      simp_all [headerGet, headerSet, headerDelete, eq_comm]
  | cons kv t ih =>
    by_cases h1 : lowerStr kv.1 = lowerStr n <;>
      by_cases h2 : lowerStr kv.1 = lowerStr m <;>
        by_cases h3 : lowerStr m = lowerStr n <;>
          simp_all [headerGet, headerSet, headerDelete]

theorem headerGet_stripFoldl (names : List String) (hs : HeaderMap) (m : String) :
    headerGet (names.foldl headerDelete hs) m =
      if lowerStr m ∈ names.map lowerStr then Option.none else headerGet hs m := by
  induction names generalizing hs with
  | nil => simp
  | cons n t ih =>
    simp only [List.foldl_cons, List.map_cons, List.mem_cons]
    rw [ih]
    by_cases h1 : lowerStr m = lowerStr n <;>
      by_cases h2 : lowerStr m ∈ t.map lowerStr <;>
        simp [h1, h2, headerGet_headerDelete]

theorem headerGet_mkUpstreamReq (req : Req) (cred : String) (u : URLParts) (m : String) :
    headerGet (mkUpstreamReq req cred u).headers m =
      if lowerStr m ∈ strippedHeaders.map lowerStr then Option.none
      else if lowerStr m = lowerStr "User-Agent" then some userAgentStr
      else if lowerStr m = lowerStr "Cookie" then some cred
      else headerGet req.headers m := by
  simp only [mkUpstreamReq]
  rw [headerGet_stripFoldl, headerGet_headerSet, headerGet_headerSet]

/-- When the session cookie resolves through the store and the URL parses,
the forwarding handler constructs exactly `mkUpstreamReq` as the upstream
request, whatever the upstream then answers. -/
theorem sentUpstream_eq (req : Req) (env : Env) (sid cred : String) (u : URLParts)
    (hc : getCookieVal req proxySessionCookieName = some sid)
    (hk : env.kvGet sid = KVRead.value cred)
    (hu : req.url = some u) :
    (proxyHandler req env).sentUpstream = some (mkUpstreamReq req cred u) := by
  simp only [proxyHandler, hc, hk, hu]
  cases hf : env.fetchProxy (mkUpstreamReq req cred u) with
  | success resp =>
    by_cases hs : resp.status = 401 ∨ resp.status = 403 <;> simp [hs]
  | networkError => simp

/-!  Claim theorems. -/

/-- Claim C1.  The claim fails on the code: `app.all('/proxy/*')` is
registered (line 248) before `app.post('/proxy/api/logout')` (line 328),
and Hono runs the first matching handler, so a POST to
`/proxy/api/logout` is dispatched to the generic forwarding handler.
With no session cookie that handler throws HTTP 401 and clears nothing,
while the (unreachable) logout handler itself would answer 200 and always
clear the cookie — evidence that the registration order, not the spec, is
the slip. -/
theorem logout_route_shadowed :
    dispatch Method.POST "/proxy/api/logout" = RouteChoice.proxyAll ∧
    (appHandle rq1 Option.none "uuid-1" env1).status = 401 ∧
    (appHandle rq1 Option.none "uuid-1" env1).clearCookie = false ∧
    (appHandle rq1 Option.none "uuid-1" env1).kvDelete = Option.none ∧
    (logoutHandler rq1).status = 200 ∧
    (logoutHandler rq1).clearCookie = true := by
  decide

/-- Claim C2, counterexample.  For an unencrypted request to a
local-development worker (`http://localhost:8787`) carrying a
cross-origin `Origin` header (`http://localhost:8080`), the resolved
SameSite policy is `None` while the resolved Secure flag is `false`. -/
theorem samesite_none_insecure_counterexample :
    getSameSiteAttribute rq2 = SameSiteAttr.none ∧ getSecureFlag rq2 = false := by
  decide

/-- Claim C2, amended: for every incoming request that is not an
unencrypted request to a local development host (localhost/127.0.0.1 over
http), if the resolved SameSite policy is cross-site-none then the
resolved Secure flag is true. -/
theorem samesite_none_implies_secure (req : Req)
    (_hss : getSameSiteAttribute req = SameSiteAttr.none)
    (hld : isLocalDevHttp req = false) :
    getSecureFlag req = true := by
  cases hu : req.url with
  | none => simp [getSecureFlag, hu]
  | some u =>
    simp only [getSecureFlag, isLocalDevHttp, hu] at hld ⊢
    by_cases hp : u.protocol = "https:"
    · simp [hp]
    · simp only [if_neg hp] at hld ⊢
      simp [hld]

/-- Claim C2, witness for the amended theorem: a cross-site request to an
HTTPS worker resolves SameSite to `None` and Secure to `true`. -/
theorem samesite_none_implies_secure_witness :
    getSecureFlag rq2w = true :=
  samesite_none_implies_secure rq2w (by decide) (by decide)

/-- Claim C3: for every forwarded request whose resolved session reaches
upstream and comes back 401 or 403, the handler schedules deletion of the
session mapping, clears the client session cookie, and returns HTTP 401
regardless of which of the two statuses upstream produced. -/
theorem upstream_rejection_invalidates (req : Req) (env : Env)
    (sid cred : String) (u : URLParts) (resp : UpstreamResp)
    (hc : getCookieVal req proxySessionCookieName = some sid)
    (hk : env.kvGet sid = KVRead.value cred)
    (hu : req.url = some u)
    (hf : env.fetchProxy (mkUpstreamReq req cred u) = FetchResult.success resp)
    (hs : resp.status = 401 ∨ resp.status = 403) :
    (proxyHandler req env).status = 401 ∧
    (proxyHandler req env).kvDelete = some sid ∧
    (proxyHandler req env).clearCookie = true := by
  simp only [proxyHandler, hc, hk, hu, hf]
  rw [if_pos hs]
  exact ⟨rfl, rfl, rfl⟩

/-- Claim C3, witness: a concrete forwarded request whose upstream answers
403 yields 401, a scheduled store delete, and a cookie clear. -/
theorem upstream_rejection_invalidates_witness :
    (proxyHandler rq3 env3).status = 401 ∧
    (proxyHandler rq3 env3).kvDelete = some "sid3" ∧
    (proxyHandler rq3 env3).clearCookie = true :=
  upstream_rejection_invalidates rq3 env3 "sid3" "newsblur_sessionid=tok3" url3 resp3
    (by decide) (by decide) (by decide) (by decide) (Or.inr (by decide))

/-- Claim C4: a proxied request presenting a session cookie whose
identifier misses in the store gets HTTP 401 together with a cookie-clear
instruction. -/
theorem store_miss_401_and_clear (req : Req) (env : Env) (sid : String)
    (hc : getCookieVal req proxySessionCookieName = some sid)
    (hk : env.kvGet sid = KVRead.missing) :
    (proxyHandler req env).status = 401 ∧
    (proxyHandler req env).clearCookie = true := by
  simp [proxyHandler, hc, hk]

/-- Claim C4, witness: a concrete unknown session identifier yields 401
plus a cookie clear. -/
theorem store_miss_401_and_clear_witness :
    (proxyHandler rq4 env4).status = 401 ∧
    (proxyHandler rq4 env4).clearCookie = true :=
  store_miss_401_and_clear rq4 env4 "sid4" (by decide) (by decide)

/-- Claim C5, counterexample.  The upstream request does not keep every
non-credential, non-stripped header intact: the inbound `User-Agent`
(`Mozilla/5.0`) is overwritten with the proxy's fixed identifier, so the
claim's "no other header is altered" fails. -/
theorem forwarded_alters_user_agent :
    headerGet rq5.headers "User-Agent" = some "Mozilla/5.0" ∧
    (proxyHandler rq5 env5).sentUpstream.map (fun r => headerGet r.headers "User-Agent")
      = some (some userAgentStr) ∧
    ¬ (userAgentStr = "Mozilla/5.0") := by
  decide

/-- Claim C5, amended: the upstream request keeps the inbound method, the
path with the first `/proxy` removed, the query string, and the inbound
body exactly for methods other than GET/HEAD; its headers are the inbound
headers with the `Cookie` header overwritten by the stored credential,
the `User-Agent` header overwritten by the proxy's fixed identifier, and
the fixed hop-by-hop/edge list removed; every other header is passed
through unaltered. -/
theorem forwarded_request_shape (req : Req) (env : Env)
    (sid cred : String) (u : URLParts) (h : String)
    (hc : getCookieVal req proxySessionCookieName = some sid)
    (hk : env.kvGet sid = KVRead.value cred)
    (hu : req.url = some u) :
    (proxyHandler req env).sentUpstream = some (mkUpstreamReq req cred u) ∧
    (mkUpstreamReq req cred u).method = req.method ∧
    (mkUpstreamReq req cred u).urlStr
      = newsblurBaseUrl ++ removeFirst u.pathname "/proxy" ++ u.search ∧
    (mkUpstreamReq req cred u).body
      = (if req.method ≠ Method.GET ∧ req.method ≠ Method.HEAD then req.body
         else Option.none) ∧
    headerGet (mkUpstreamReq req cred u).headers "Cookie" = some cred ∧
    headerGet (mkUpstreamReq req cred u).headers "User-Agent" = some userAgentStr ∧
    (lowerStr h ∈ strippedHeaders.map lowerStr →
      headerGet (mkUpstreamReq req cred u).headers h = Option.none) ∧
    (lowerStr h ∉ strippedHeaders.map lowerStr →
      lowerStr h ≠ lowerStr "Cookie" → lowerStr h ≠ lowerStr "User-Agent" →
      headerGet (mkUpstreamReq req cred u).headers h = headerGet req.headers h) := by
  refine ⟨sentUpstream_eq req env sid cred u hc hk hu, rfl, rfl, rfl, ?_, ?_, ?_, ?_⟩
  · rw [headerGet_mkUpstreamReq, if_neg (by decide), if_neg (by decide), if_pos rfl]
  · rw [headerGet_mkUpstreamReq, if_neg (by decide), if_pos rfl]
  · intro hmem
    rw [headerGet_mkUpstreamReq, if_pos hmem]
  · intro hmem hck hua
    rw [headerGet_mkUpstreamReq, if_neg hmem, if_neg hua, if_neg hck]

/-- Claim C5, witness for the amended theorem, instantiated at the header
name `X-Forwarded-For` (one of the stripped edge headers). -/
theorem forwarded_request_shape_witness :
    (proxyHandler rq5 env5).sentUpstream
      = some (mkUpstreamReq rq5 "newsblur_sessionid=tok5" url5) ∧
    (mkUpstreamReq rq5 "newsblur_sessionid=tok5" url5).method = rq5.method ∧
    (mkUpstreamReq rq5 "newsblur_sessionid=tok5" url5).urlStr
      = newsblurBaseUrl ++ removeFirst url5.pathname "/proxy" ++ url5.search ∧
    (mkUpstreamReq rq5 "newsblur_sessionid=tok5" url5).body
      = (if rq5.method ≠ Method.GET ∧ rq5.method ≠ Method.HEAD then rq5.body
         else Option.none) ∧
    headerGet (mkUpstreamReq rq5 "newsblur_sessionid=tok5" url5).headers "Cookie"
      = some "newsblur_sessionid=tok5" ∧
    headerGet (mkUpstreamReq rq5 "newsblur_sessionid=tok5" url5).headers "User-Agent"
      = some userAgentStr ∧
    (lowerStr "X-Forwarded-For" ∈ strippedHeaders.map lowerStr →
      headerGet (mkUpstreamReq rq5 "newsblur_sessionid=tok5" url5).headers "X-Forwarded-For"
        = Option.none) ∧
    (lowerStr "X-Forwarded-For" ∉ strippedHeaders.map lowerStr →
      lowerStr "X-Forwarded-For" ≠ lowerStr "Cookie" →
      lowerStr "X-Forwarded-For" ≠ lowerStr "User-Agent" →
      headerGet (mkUpstreamReq rq5 "newsblur_sessionid=tok5" url5).headers "X-Forwarded-For"
        = headerGet rq5.headers "X-Forwarded-For") :=
  forwarded_request_shape rq5 env5 "sid5" "newsblur_sessionid=tok5" url5 "X-Forwarded-For"
    (by decide) (by decide) (by decide)

/-- Claim C6, counterexample.  When upstream login fails with a
non-JSON body, the proxy keeps the upstream status but substitutes its
generic failure JSON instead of relaying the body as-is. -/
theorem login_failure_body_not_relayed :
    (loginHandler rq6 form6 "uuid-6" (FetchResult.success resp6x)).status = 500 ∧
    (loginHandler rq6 form6 "uuid-6" (FetchResult.success resp6x)).body
      = RBody.jsonGenericLoginFail ∧
    ¬ ((loginHandler rq6 form6 "uuid-6" (FetchResult.success resp6x)).body
      = RBody.jsonRelay "Server Error") := by
  decide

/-- Claim C6, amended: on a failed login (status outside 200-399, or the
session-cookie pattern absent from the set-cookie header), the proxy
responds with the upstream's own status, relays the upstream body when it
parses as JSON (substituting a generic failure JSON otherwise), clears
any stale session cookie, and neither sets a session cookie nor writes to
the store. -/
theorem login_failure_relay (req : Req) (form : Option (List (String × String)))
    (uuid un pw : String) (resp : UpstreamResp)
    (hv : validCreds form = some (un, pw))
    (hx : loginExtract resp = Option.none) :
    (loginHandler req form uuid (FetchResult.success resp)).status = resp.status ∧
    (loginHandler req form uuid (FetchResult.success resp)).body
      = (if resp.bodyIsJson then RBody.jsonRelay resp.body else RBody.jsonGenericLoginFail) ∧
    (loginHandler req form uuid (FetchResult.success resp)).clearCookie = true ∧
    (loginHandler req form uuid (FetchResult.success resp)).setCookie = Option.none ∧
    (loginHandler req form uuid (FetchResult.success resp)).kvPut = Option.none := by
  simp [loginHandler, hv, hx, baseResult]

/-- Claim C6, witness: a concrete failed login whose upstream body is
valid JSON is relayed with the upstream status, a cookie clear, and no
new session. -/
theorem login_failure_relay_witness :
    (loginHandler rq6 form6 "uuid-6" (FetchResult.success resp6w)).status = resp6w.status ∧
    (loginHandler rq6 form6 "uuid-6" (FetchResult.success resp6w)).body
      = (if resp6w.bodyIsJson then RBody.jsonRelay resp6w.body else RBody.jsonGenericLoginFail) ∧
    (loginHandler rq6 form6 "uuid-6" (FetchResult.success resp6w)).clearCookie = true ∧
    (loginHandler rq6 form6 "uuid-6" (FetchResult.success resp6w)).setCookie = Option.none ∧
    (loginHandler rq6 form6 "uuid-6" (FetchResult.success resp6w)).kvPut = Option.none :=
  login_failure_relay rq6 form6 "uuid-6" "alice" "pw" resp6w (by decide) (by decide)

/-- Claim C7: on a passed-through upstream response (status not 401/403),
every header the forwarding handler returns has a name in the fixed
allow-list content-type/content-length/date/etag. -/
theorem response_header_allowlist (req : Req) (env : Env)
    (sid cred : String) (u : URLParts) (resp : UpstreamResp) (k v : String)
    (hc : getCookieVal req proxySessionCookieName = some sid)
    (hk : env.kvGet sid = KVRead.value cred)
    (hu : req.url = some u)
    (hf : env.fetchProxy (mkUpstreamReq req cred u) = FetchResult.success resp)
    (hs : ¬ (resp.status = 401 ∨ resp.status = 403))
    (hkv : (k, v) ∈ (proxyHandler req env).headers) :
    lowerStr k ∈ allowedRespHeaders := by
  simp only [proxyHandler, hc, hk, hu, hf] at hkv
  rw [if_neg hs] at hkv
  simp only [List.mem_filter] at hkv
  simpa using hkv.2

/-- Claim C7, witness: with an upstream response carrying extra headers,
the header the handler does return (`Content-Type`) is in the
allow-list; the hypotheses are discharged on a concrete run. -/
theorem response_header_allowlist_witness :
    lowerStr "Content-Type" ∈ allowedRespHeaders :=
  response_header_allowlist rq7 env7 "sid7" "newsblur_sessionid=tok7" url3 resp7
    "Content-Type" "application/json"
    (by decide) (by decide) (by decide) (by decide) (by decide) (by decide)

/-- Claim C8: when the session-store read itself fails, the forwarding
handler answers HTTP 500, does not clear the client cookie, and schedules
no store deletion. -/
theorem store_unavailable_500 (req : Req) (env : Env) (sid : String)
    (hc : getCookieVal req proxySessionCookieName = some sid)
    (hk : env.kvGet sid = KVRead.unavailable) :
    (proxyHandler req env).status = 500 ∧
    (proxyHandler req env).clearCookie = false ∧
    (proxyHandler req env).kvDelete = Option.none ∧
    (proxyHandler req env).setCookie = Option.none := by
  simp [proxyHandler, hc, hk, baseResult]

/-- Claim C8, witness: a concrete store failure yields 500 with the
session state untouched. -/
theorem store_unavailable_500_witness :
    (proxyHandler rq8 env8).status = 500 ∧
    (proxyHandler rq8 env8).clearCookie = false ∧
    (proxyHandler rq8 env8).kvDelete = Option.none ∧
    (proxyHandler rq8 env8).setCookie = Option.none :=
  store_unavailable_500 rq8 env8 "sid8" (by decide) (by decide)

/-- Claim C9: whenever a login sets the client session cookie, the value
set is exactly the freshly generated identifier (`crypto.randomUUID()`),
for every username/password and every upstream response — so it is never
derived from user input; the stored upstream credential always contains
the character `=`, so any identifier free of `=` (as UUIDs are) differs
from the credential. -/
theorem login_session_opacity (req : Req) (form : Option (List (String × String)))
    (uuid : String) (lf : FetchResult) (v : String) (opts : CookieOpts)
    (k cred : String) (ttl : Nat)
    (hset : (loginHandler req form uuid lf).setCookie = some (v, opts))
    (hput : (loginHandler req form uuid lf).kvPut = some (k, cred, ttl)) :
    v = uuid ∧ k = uuid ∧ cred.data.contains '=' = true ∧
    (uuid.data.contains '=' = false → v ≠ cred) := by
  cases hv : validCreds form with
  | none => simp [loginHandler, hv, baseResult] at hset
  | some creds =>
    cases lf with
    | networkError => simp [loginHandler, hv, baseResult] at hset
    | success resp =>
      cases hx : loginExtract resp with
      | none => simp [loginHandler, hv, hx, baseResult] at hset
      | some cred0 =>
        simp only [loginHandler, hv, hx, Option.some.injEq, Prod.mk.injEq] at hset hput
        obtain ⟨hv0, -⟩ := hset
        obtain ⟨hk0, hcred0, -⟩ := hput
        have hshape : ∃ cap : List Char, cred0 = "newsblur_sessionid=" ++ String.mk cap := by
          unfold loginExtract at hx
          split at hx
          · exact absurd hx (by simp)
          · split at hx
            · obtain ⟨cap, -, hcap⟩ := Option.map_eq_some'.mp hx
              exact ⟨cap, hcap.symm⟩
            · exact absurd hx (by simp)
        obtain ⟨cap, hcap⟩ := hshape
        have hcontains : cred.data.contains '=' = true := by
          rw [← hcred0, hcap]
          have hm : '=' ∈ ("newsblur_sessionid=" ++ String.mk cap).data := by
            rw [String.data_append]
            exact List.mem_append_left _ (by decide)
          simp [List.contains, hm]
        refine ⟨hv0.symm, hk0.symm, hcontains, ?_⟩
        intro hfree heq
        rw [hv0.symm] at heq
        rw [heq] at hfree
        rw [hcontains] at hfree
        exact absurd hfree (by decide)

/-- Claim C9, witness: a concrete successful login stores
`newsblur_sessionid=zz12` under the fresh identifier and hands the client
only that identifier, which differs from the credential. -/
theorem login_session_opacity_witness :
    uuid9 = uuid9 ∧ uuid9 = uuid9 ∧
    ("newsblur_sessionid=zz12").data.contains '=' = true ∧
    (uuid9.data.contains '=' = false → uuid9 ≠ "newsblur_sessionid=zz12") :=
  login_session_opacity rq9 form9 uuid9 (FetchResult.success resp9) uuid9 cookieOpts9
    uuid9 "newsblur_sessionid=zz12" sessionTtl (by decide) (by decide)

/-- Claim C10: with a resolved session, the upstream request's `Cookie`
header is exactly the stored upstream credential — whatever cookies the
client sent (including the proxy session cookie) are replaced, never
forwarded. -/
theorem upstream_cookie_replaced (req : Req) (env : Env)
    (sid cred : String) (u : URLParts)
    (hc : getCookieVal req proxySessionCookieName = some sid)
    (hk : env.kvGet sid = KVRead.value cred)
    (hu : req.url = some u) :
    (proxyHandler req env).sentUpstream = some (mkUpstreamReq req cred u) ∧
    headerGet (mkUpstreamReq req cred u).headers "Cookie" = some cred := by
  refine ⟨sentUpstream_eq req env sid cred u hc hk hu, ?_⟩
  rw [headerGet_mkUpstreamReq, if_neg (by decide), if_neg (by decide), if_pos rfl]

/-- Claim C10, witness: a concrete request carrying both the proxy cookie
and another client cookie forwards exactly the stored credential as the
upstream `Cookie` header. -/
theorem upstream_cookie_replaced_witness :
    (proxyHandler rq10 env10).sentUpstream
      = some (mkUpstreamReq rq10 "newsblur_sessionid=tok10"
          { protocol := "https:"
            hostname := "worker.example.com"
            host := "worker.example.com"
            pathname := "/proxy/reader/feed/42"
            search := "" }) ∧
    headerGet (mkUpstreamReq rq10 "newsblur_sessionid=tok10"
          { protocol := "https:"
            hostname := "worker.example.com"
            host := "worker.example.com"
            pathname := "/proxy/reader/feed/42"
            search := "" }).headers "Cookie"
      = some "newsblur_sessionid=tok10" :=
  upstream_cookie_replaced rq10 env10 "sid10" "newsblur_sessionid=tok10"
    { protocol := "https:"
      hostname := "worker.example.com"
      host := "worker.example.com"
      pathname := "/proxy/reader/feed/42"
      search := "" }
    (by decide) (by decide) (by decide)

end NewsblurProxy
